import Mathlib

/-
Verification of the clock-app rendering core (src/main.rs): the Renderer
orchestration layer, the winit event loop, and the picture-loading startup
path.  The Picture Layer and Text Overlay Layer live in modules picture.rs
and text.rs whose sources are not available; their operations are modelled
from the spec contracts (section 6) and marked as such.
-/

namespace ClockApp

/-- A render pass recorded into a command encoder.  A picture pass carries
the bytes currently held by the picture texture (none if never set). -/
inductive Pass where
  | picture (tex : Option (List Nat))
  | text
deriving DecidableEq

/-- Observable effects of Renderer operations on the GPU queue, the window
and the two layers. -/
inductive RendererEffect where
  | surfaceConfigure (width height : Nat)
  | textResize (width height : Nat)
  | pictureUpload (data : List Nat)
  | submit (buffers : List (List Pass))
  | present
  | requestRedraw
deriving DecidableEq

/-- wgpu::SurfaceConfiguration as used by main.rs: width, height and a
pixel format (opaque, modelled as a Nat tag). -/
structure SurfaceConfig where
  width : Nat
  height : Nat
  format : Nat
deriving DecidableEq

/-- Modelled from the spec: the Picture Layer contract (construct with fixed
width and height; setPicture uploads new pixel data replacing prior content;
draw appends exactly one render pass).  Source picture.rs is not available. -/
structure PicturePipeline where
  width : Nat
  height : Nat
  texture : Option (List Nat)
deriving DecidableEq

/-- Modelled from the spec: the Text Overlay Layer contract (construct with
window dimensions; resize adjusts layout to new dimensions; draw appends
exactly one render pass).  Source text.rs is not available. -/
structure TextPipeline where
  width : Nat
  height : Nat
deriving DecidableEq

/-- Modelled from the spec: PicturePipeline.set_picture uploads new pixel
data via the queue, replacing prior content, visible from the next draw. -/
def PicturePipeline.set_picture (p : PicturePipeline) (data : List Nat) : PicturePipeline :=
  { p with texture := some data }

/-- Modelled from the spec: PicturePipeline.draw appends exactly one render
pass drawing the current texture to fill the given view. -/
def PicturePipeline.draw (p : PicturePipeline) (enc : List Pass) : List Pass :=
  enc ++ [Pass.picture p.texture]

/-- Modelled from the spec: TextPipeline.draw appends exactly one render
pass drawing overlay text on top of existing content in the view. -/
def TextPipeline.draw (_t : TextPipeline) (enc : List Pass) : List Pass :=
  enc ++ [Pass.text]

/-- Modelled from the spec: TextPipeline.resize adjusts internal layout to
the new window dimensions. -/
def TextPipeline.resize (_t : TextPipeline) (width height : Nat) : TextPipeline :=
  { width := width, height := height }

/-- The Renderer state from main.rs: window handle (its id), surface
configuration, and the two layer pipelines.  Surface, device and queue hold
no modelled state beyond the configuration. -/
structure Renderer where
  windowId : Nat
  config : SurfaceConfig
  picture_pipeline : PicturePipeline
  text_pipeline : TextPipeline
deriving DecidableEq

/-- Renderer::new from main.rs lines 104 to 147: derives the surface config
from the window inner size and constructs the picture pipeline at the fixed
picture dimensions and the text pipeline at the window dimensions. -/
def Renderer.new (wid winW winH pw ph : Nat) : Renderer :=
  { windowId := wid
    config := { width := winW, height := winH, format := 0 }
    picture_pipeline := { width := pw, height := ph, texture := none }
    text_pipeline := { width := winW, height := winH } }

/-- Renderer::request_redraw from main.rs lines 149 to 151. -/
def Renderer.request_redraw (r : Renderer) : Renderer × List RendererEffect :=
  (r, [RendererEffect.requestRedraw])

/-- Renderer::draw from main.rs lines 153 to 168: acquire the frame, build
one command encoder, record the picture pass then the text pass into the
frame view, submit the single finished buffer, present. -/
def Renderer.draw (r : Renderer) : Renderer × List RendererEffect :=
  let enc0 : List Pass := []
  let enc1 := r.picture_pipeline.draw enc0
  let enc2 := r.text_pipeline.draw enc1
  (r, [RendererEffect.submit [enc2], RendererEffect.present])

/-- Renderer::set_picture from main.rs lines 170 to 172: forwards the byte
slice to the picture pipeline upload. -/
def Renderer.set_picture (r : Renderer) (data : List Nat) : Renderer × List RendererEffect :=
  ({ r with picture_pipeline := r.picture_pipeline.set_picture data },
   [RendererEffect.pictureUpload data])

/-- Renderer::resize from main.rs lines 174 to 182: only when both
dimensions are positive, update the config, reconfigure the surface and
resize the text pipeline; otherwise do nothing. -/
def Renderer.resize (r : Renderer) (width height : Nat) : Renderer × List RendererEffect :=
  if 0 < width ∧ 0 < height then
    ({ r with
        config := { r.config with width := width, height := height }
        text_pipeline := r.text_pipeline.resize width height },
     [RendererEffect.surfaceConfigure width height, RendererEffect.textResize width height])
  else (r, [])

/-- Renderer::match_window from main.rs lines 184 to 186. -/
def Renderer.match_window (r : Renderer) (wid : Nat) : Bool :=
  r.windowId == wid

/-- rand SliceRandom::choose on a slice: none on an empty slice, otherwise
the element at a uniformly sampled index.  The rng draw is modelled by the
sampled natural number idx, reduced modulo the length so every draw is a
valid index. -/
def choose (xs : List (List Nat)) (idx : Nat) : Option (List Nat) :=
  if xs.isEmpty then none else xs.get? (idx % xs.length)

/-- The winit events handled by the event loop in main.rs lines 60 to 90. -/
inductive Event where
  | init
  | resumeTimeReached
  | redrawRequested (windowId : Nat)
  | resized (windowId width height : Nat)
  | scaleFactorChanged (windowId width height : Nat)
  | closeRequested (windowId : Nat)
  | other
deriving DecidableEq

/-- Mutable loop-captured state of main: the renderer, the rotation
interval, and the Instant of the last picture swap.  Time is modelled as a
monotonic Nat timestamp; elapsed is now minus the stored instant. -/
structure LoopState where
  renderer : Renderer
  pictureInterval : Nat
  pictureInstant : Nat
deriving DecidableEq

/-- One iteration of the event-loop closure of main.rs lines 60 to 90 on a
single event, given the current time and the rng draw for this iteration.
Returns the new state, the renderer effects emitted, and the exit flag set
by control_flow.set_exit.  A panic (unwrap on None) is an error. -/
def handleEvent (pictures : List (List Nat)) (st : LoopState) (ev : Event)
    (now idx : Nat) : Except String (LoopState × List RendererEffect × Bool) :=
  match ev with
  | Event.init => Except.ok (st, [], false)
  | Event.resumeTimeReached =>
      let (r1, effs) := st.renderer.request_redraw
      Except.ok ({ st with renderer := r1 }, effs, false)
  | Event.redrawRequested wid =>
      if st.renderer.match_window wid then
        if st.pictureInterval < now - st.pictureInstant then
          match choose pictures idx with
          | none => Except.error "called unwrap on a None value"
          | some p =>
              let (r1, e1) := st.renderer.set_picture p
              let (r2, e2) := r1.draw
              Except.ok ({ st with renderer := r2, pictureInstant := now }, e1 ++ e2, false)
        else
          let (r1, e1) := st.renderer.draw
          Except.ok ({ st with renderer := r1 }, e1, false)
      else Except.ok (st, [], false)
  | Event.resized wid w h =>
      if st.renderer.match_window wid then
        let (r1, effs) := st.renderer.resize w h
        Except.ok ({ st with renderer := r1 }, effs, false)
      else Except.ok (st, [], false)
  | Event.scaleFactorChanged wid w h =>
      if st.renderer.match_window wid then
        let (r1, effs) := st.renderer.resize w h
        Except.ok ({ st with renderer := r1 }, effs, false)
      else Except.ok (st, [], false)
  | Event.closeRequested wid =>
      if st.renderer.match_window wid then Except.ok (st, [], true)
      else Except.ok (st, [], false)
  | Event.other => Except.ok (st, [], false)

/-- A directory entry as seen by load_pictures: the file name as produced
by to_str (none when not valid UTF-8, otherwise its characters) and the
result of image::open (none when the file fails to decode as an image,
some raw bytes otherwise). -/
structure DirEntry where
  name : Option (List Char)
  decoded : Option (List Nat)
deriving DecidableEq

/-- Modelled from the spec: resize_to_fill plus to_rgba8 from the external
image crate produce a buffer of exactly width times height times 4 bytes
from the decoded image.  Content is derived from the input bytes by
padding or truncation; the resampling itself is out of scope. -/
def resize_to_fill (w h : Nat) (img : List Nat) : List Nat :=
  (img ++ List.replicate (w * h * 4) 0).take (w * h * 4)

/-- load_pictures from main.rs lines 189 to 207.  The directory listing is
none when read_dir fails (the unwrap panics, modelled as an error); each
yielded io::Result is an Option DirEntry and Err entries are dropped;
entries with hidden or non-UTF-8 names are dropped; entries that fail to
decode are dropped; the rest are resized to RGBA buffers. -/
def load_pictures (dir : Option (List (Option DirEntry))) (w h : Nat) :
    Except String (List (List Nat)) :=
  match dir with
  | none => Except.error "read_dir failed: directory unreadable"
  | some entries =>
      Except.ok
        ((((entries.filterMap id).filter
            (fun e =>
              match e.name with
              | some cs => !(cs.head? == some ('.' : Char))
              | none => false)).filterMap (fun e => e.decoded)).map (resize_to_fill w h))

/-- The startup sequence of main.rs lines 43 to 54: construct the renderer,
record the rotation Instant, load the pictures, choose a random initial
picture and upload it (the unwrap on choose panics when the set is empty).
Returns the initial loop state, the picture set, and the startup effects. -/
def startup (dir : Option (List (Option DirEntry)))
    (wid winW winH pw ph interval instant0 idx : Nat) :
    Except String (LoopState × List (List Nat) × List RendererEffect) :=
  let r0 := Renderer.new wid winW winH pw ph
  match load_pictures dir pw ph with
  | Except.error msg => Except.error msg
  | Except.ok pictures =>
      match choose pictures idx with
      | none => Except.error "called unwrap on a None value"
      | some p =>
          let (r1, effs) := r0.set_picture p
          Except.ok ({ renderer := r1, pictureInterval := interval, pictureInstant := instant0 },
                     pictures, effs)

/-- Run the event loop over a script of events, each tagged with the
current time and the rng draw; stop at the first exit request. -/
def runEvents (pictures : List (List Nat)) (st : LoopState)
    (evs : List (Event × Nat × Nat)) :
    Except String (LoopState × List RendererEffect × Bool) :=
  match evs with
  | [] => Except.ok (st, [], false)
  | (ev, now, idx) :: rest =>
      match handleEvent pictures st ev now idx with
      | Except.error msg => Except.error msg
      | Except.ok (st1, effs, ex) =>
          if ex then Except.ok (st1, effs, true)
          else
            match runEvents pictures st1 rest with
            | Except.error msg => Except.error msg
            | Except.ok (st2, effs2, ex2) => Except.ok (st2, effs ++ effs2, ex2)

/-- Whole application: startup then the event loop.  A startup failure
aborts before any event is processed. -/
def runApp (dir : Option (List (Option DirEntry)))
    (wid winW winH pw ph interval instant0 idx : Nat)
    (evs : List (Event × Nat × Nat)) :
    Except String (LoopState × List RendererEffect × Bool) :=
  match startup dir wid winW winH pw ph interval instant0 idx with
  | Except.error msg => Except.error msg
  | Except.ok (st, pictures, effs0) =>
      match runEvents pictures st evs with
      | Except.error msg => Except.error msg
      | Except.ok (st1, effs1, ex) => Except.ok (st1, effs0 ++ effs1, ex)

/-- Number of setPicture uploads in an effect list. -/
def countUploads (effs : List RendererEffect) : Nat :=
  effs.countP (fun e =>
    match e with
    | RendererEffect.pictureUpload _ => true
    | _ => false)

/-- The effect list emitted by a redraw cycle that swaps to picture p:
the upload, then the single submission drawing p under the text overlay,
then the present. -/
def swapEffects (p : List Nat) : List RendererEffect :=
  [RendererEffect.pictureUpload p,
   RendererEffect.submit [[Pass.picture (some p), Pass.text]],
   RendererEffect.present]

/-- Sample renderer for concrete evaluations. -/
def sampleRenderer : Renderer := Renderer.new 0 800 480 800 480

/-- Sample loop state: rotation interval 10, last swap at time 0. -/
def sampleState : LoopState :=
  { renderer := sampleRenderer, pictureInterval := 10, pictureInstant := 0 }

theorem choose_eq_get (xs : List (List Nat)) (idx : Nat) (h : xs ≠ []) :
    choose xs idx
      = some (xs.get ⟨idx % xs.length, Nat.mod_lt _ (List.length_pos.mpr h)⟩) := by
  have hne : xs.isEmpty = false := by
    simp [List.isEmpty_iff, h]
  simp [choose, hne, List.get?_eq_get (Nat.mod_lt _ (List.length_pos.mpr h))]

theorem choose_mem (xs : List (List Nat)) (idx : Nat) (p : List Nat)
    (h : choose xs idx = some p) : p ∈ xs := by
  by_cases hx : xs = []
  · subst hx; simp [choose] at h
  · rw [choose_eq_get xs idx hx] at h
    exact (Option.some_inj.mp h) ▸ xs.get_mem _ _

/-- C5: Renderer.draw builds exactly one command sequence holding exactly
one picture pass followed by exactly one text pass, submits it as a single
submission, and presents afterwards; the renderer state is unchanged. -/
theorem draw_single_submission (r : Renderer) :
    r.draw = (r, [RendererEffect.submit [[Pass.picture r.picture_pipeline.texture, Pass.text]],
                  RendererEffect.present]) := rfl

/-- C6: Renderer.set_picture forwards exactly the given bytes to the
picture layer upload, changes no other renderer state, emits no redraw
request, and the uploaded bytes are what the next draw renders. -/
theorem set_picture_exact_bytes (r : Renderer) (data : List Nat) :
    r.set_picture data
        = ({ r with picture_pipeline := { r.picture_pipeline with texture := some data } },
           [RendererEffect.pictureUpload data])
      ∧ (r.set_picture data).1.config = r.config
      ∧ (r.set_picture data).1.text_pipeline = r.text_pipeline
      ∧ RendererEffect.requestRedraw ∉ (r.set_picture data).2
      ∧ ((r.set_picture data).1.draw).2
          = [RendererEffect.submit [[Pass.picture (some data), Pass.text]],
             RendererEffect.present] := by
  refine ⟨rfl, rfl, rfl, ?_, rfl⟩
  simp [Renderer.set_picture]

/-- C3: a resize with a zero dimension is a no-op (config, surface and
text layer untouched), and every resize preserves the positivity invariant
of the surface configuration. -/
theorem resize_zero_noop (r : Renderer) (w h : Nat) :
    (w = 0 ∨ h = 0 → r.resize w h = (r, []))
      ∧ (0 < r.config.width → 0 < r.config.height →
          0 < (r.resize w h).1.config.width ∧ 0 < (r.resize w h).1.config.height) := by
  constructor
  · intro hz
    have hcond : ¬ (0 < w ∧ 0 < h) := by
      rcases hz with hz | hz <;> omega
    simp [Renderer.resize, hcond]
  · intro hw hh
    by_cases hcond : 0 < w ∧ 0 < h
    · simp [Renderer.resize, hcond]
    · simp [Renderer.resize, hcond]
      exact ⟨hw, hh⟩

theorem resize_zero_noop_witness :
    ((0 : Nat) = 0 ∨ (7 : Nat) = 0)
      ∧ sampleRenderer.resize 0 7 = (sampleRenderer, [])
      ∧ 0 < sampleRenderer.config.width ∧ 0 < sampleRenderer.config.height
      ∧ 0 < (sampleRenderer.resize 0 7).1.config.width
      ∧ 0 < (sampleRenderer.resize 0 7).1.config.height := by
  have h := resize_zero_noop sampleRenderer 0 7
  exact ⟨Or.inl rfl, h.1 (Or.inl rfl), by decide, by decide,
         (h.2 (by decide) (by decide)).1, (h.2 (by decide) (by decide)).2⟩

/-- C4: a resize with both dimensions positive sets the surface config to
exactly the new values (format unchanged), reconfigures the surface,
resizes the text layer to the same values, and leaves the picture layer
untouched at its construction dimensions. -/
theorem resize_positive (r : Renderer) (w h : Nat) (hw : 0 < w) (hh : 0 < h) :
    r.resize w h
        = ({ r with
              config := { r.config with width := w, height := h }
              text_pipeline := { width := w, height := h } },
           [RendererEffect.surfaceConfigure w h, RendererEffect.textResize w h])
      ∧ (r.resize w h).1.picture_pipeline = r.picture_pipeline
      ∧ (r.resize w h).1.config.format = r.config.format := by
  have hcond : 0 < w ∧ 0 < h := ⟨hw, hh⟩
  refine ⟨?_, ?_, ?_⟩ <;> simp [Renderer.resize, hcond, TextPipeline.resize]

theorem resize_positive_witness :
    0 < 640 ∧ 0 < 480
      ∧ sampleRenderer.resize 640 480
          = ({ sampleRenderer with
                config := { sampleRenderer.config with width := 640, height := 480 }
                text_pipeline := { width := 640, height := 480 } },
             [RendererEffect.surfaceConfigure 640 480, RendererEffect.textResize 640 480])
      ∧ (sampleRenderer.resize 640 480).1.picture_pipeline = sampleRenderer.picture_pipeline := by
  have h := resize_positive sampleRenderer 640 480 (by decide) (by decide)
  exact ⟨by decide, by decide, h.1, h.2.1⟩

/-- C8: a close request for the matching window performs no renderer
operation in that cycle and requests loop exit. -/
theorem close_request_terminal (pictures : List (List Nat)) (st : LoopState)
    (now idx : Nat) :
    handleEvent pictures st (Event.closeRequested st.renderer.windowId) now idx
      = Except.ok (st, [], true) := by
  simp [handleEvent, Renderer.match_window]

/-- C2: when the elapsed time since the last swap is strictly below the
rotation interval, a redraw cycle performs no setPicture: only the draw
happens, and the rotation baseline is unchanged. -/
theorem rotation_not_due_no_swap (pictures : List (List Nat)) (st : LoopState)
    (now idx : Nat) (hlt : now - st.pictureInstant < st.pictureInterval) :
    handleEvent pictures st (Event.redrawRequested st.renderer.windowId) now idx
        = Except.ok (st,
            [RendererEffect.submit [[Pass.picture st.renderer.picture_pipeline.texture, Pass.text]],
             RendererEffect.present], false)
      ∧ countUploads
          [RendererEffect.submit [[Pass.picture st.renderer.picture_pipeline.texture, Pass.text]],
           RendererEffect.present] = 0 := by
  have hc : ¬ st.pictureInterval < now - st.pictureInstant := by omega
  constructor
  · simp [handleEvent, Renderer.match_window, hc, Renderer.draw,
          PicturePipeline.draw, TextPipeline.draw]
  · simp [countUploads]

theorem rotation_not_due_no_swap_witness :
    9 - sampleState.pictureInstant < sampleState.pictureInterval
      ∧ handleEvent [[1]] sampleState (Event.redrawRequested sampleState.renderer.windowId) 9 0
          = Except.ok (sampleState,
              [RendererEffect.submit [[Pass.picture sampleState.renderer.picture_pipeline.texture,
                                       Pass.text]],
               RendererEffect.present], false) := by
  have h := rotation_not_due_no_swap [[1]] sampleState 9 0 (by decide)
  exact ⟨by decide, h.1⟩

/-- C1 counterexample: at the exact boundary where the elapsed time equals
the rotation interval (interval 10, last swap at 0, redraw at time 10),
the code performs no setPicture: the comparison on main.rs line 69 is
strict, so an elapsed time greater than or equal to the interval does not
suffice to trigger a swap. -/
theorem rotation_boundary_counterexample :
    sampleState.pictureInterval ≤ 10 - sampleState.pictureInstant
      ∧ handleEvent [[1]] sampleState (Event.redrawRequested 0) 10 0
          = Except.ok (sampleState,
              [RendererEffect.submit [[Pass.picture none, Pass.text]],
               RendererEffect.present], false)
      ∧ countUploads
          [RendererEffect.submit [[Pass.picture none, Pass.text]],
           RendererEffect.present] = 0 := by
  refine ⟨by decide, ?_, by decide⟩
  rfl

/-- C1 (amended): when the elapsed time since the last swap is strictly
greater than the rotation interval, a redraw cycle performs exactly one
setPicture with some element of the picture set, followed by the draw, and
resets the elapsed-time baseline to the current time. -/
theorem rotation_swap_strict (pictures : List (List Nat)) (st : LoopState)
    (now idx : Nat) (hne : pictures ≠ [])
    (hdue : st.pictureInterval < now - st.pictureInstant) :
    ∃ st1 p, p ∈ pictures
      ∧ handleEvent pictures st (Event.redrawRequested st.renderer.windowId) now idx
          = Except.ok (st1, swapEffects p, false)
      ∧ countUploads (swapEffects p) = 1
      ∧ st1.pictureInstant = now := by
  have hlen : 0 < pictures.length := List.length_pos.mpr hne
  have hc := choose_eq_get pictures idx hne
  refine ⟨{ st with
      renderer := { st.renderer with picture_pipeline :=
        { st.renderer.picture_pipeline with
            texture := some (pictures.get ⟨idx % pictures.length, Nat.mod_lt _ hlen⟩) } }
      pictureInstant := now },
    pictures.get ⟨idx % pictures.length, Nat.mod_lt _ hlen⟩,
    pictures.get_mem _ _, ?_, ?_, rfl⟩
  · simp [handleEvent, Renderer.match_window, hdue, hc, Renderer.set_picture,
          Renderer.draw, PicturePipeline.set_picture, PicturePipeline.draw,
          TextPipeline.draw, swapEffects]
  · simp [countUploads, swapEffects]

theorem rotation_swap_strict_witness :
    ([[5], [6]] : List (List Nat)) ≠ []
      ∧ sampleState.pictureInterval < 11 - sampleState.pictureInstant
      ∧ ∃ st1 p, p ∈ ([[5], [6]] : List (List Nat))
          ∧ handleEvent [[5], [6]] sampleState
              (Event.redrawRequested sampleState.renderer.windowId) 11 0
              = Except.ok (st1, swapEffects p, false)
          ∧ countUploads (swapEffects p) = 1
          ∧ st1.pictureInstant = 11 := by
  exact ⟨by decide, by decide,
         rotation_swap_strict [[5], [6]] sampleState 11 0 (by decide) (by decide)⟩

/-- C7: in a swapping redraw cycle the buffer handed to setPicture is the
picture-set element at the uniformly sampled index: every chosen buffer is
an element of the set, the rng draw idx selects exactly position idx mod
length (so a uniform draw gives a uniform index, with no exclusion of the
currently displayed picture), and every position below the length is
selected by the draw equal to it. -/
theorem swap_uniform_choice (pictures : List (List Nat)) (st : LoopState)
    (now : Nat) (hne : pictures ≠ [])
    (hdue : st.pictureInterval < now - st.pictureInstant) :
    (∀ idx p, choose pictures idx = some p → p ∈ pictures)
      ∧ (∀ idx, ∃ st1,
          handleEvent pictures st (Event.redrawRequested st.renderer.windowId) now idx
            = Except.ok (st1,
                swapEffects (pictures.get
                  ⟨idx % pictures.length, Nat.mod_lt _ (List.length_pos.mpr hne)⟩),
                false))
      ∧ (∀ i, ∀ hi : i < pictures.length, ∃ st1,
          handleEvent pictures st (Event.redrawRequested st.renderer.windowId) now i
            = Except.ok (st1, swapEffects (pictures.get ⟨i, hi⟩), false)) := by
  have hlen : 0 < pictures.length := List.length_pos.mpr hne
  have key : ∀ idx, ∃ st1,
      handleEvent pictures st (Event.redrawRequested st.renderer.windowId) now idx
        = Except.ok (st1,
            swapEffects (pictures.get ⟨idx % pictures.length, Nat.mod_lt _ hlen⟩),
            false) := by
    intro idx
    have hc := choose_eq_get pictures idx hne
    refine ⟨{ st with
        renderer := { st.renderer with picture_pipeline :=
          { st.renderer.picture_pipeline with
              texture := some (pictures.get ⟨idx % pictures.length, Nat.mod_lt _ hlen⟩) } }
        pictureInstant := now }, ?_⟩
    simp [handleEvent, Renderer.match_window, hdue, hc, Renderer.set_picture,
          Renderer.draw, PicturePipeline.set_picture, PicturePipeline.draw,
          TextPipeline.draw, swapEffects]
  refine ⟨fun idx p h => choose_mem pictures idx p h, key, ?_⟩
  intro i hi
  obtain ⟨st1, h⟩ := key i
  refine ⟨st1, ?_⟩
  have hfix : (⟨i % pictures.length, Nat.mod_lt _ hlen⟩ : Fin pictures.length)
      = ⟨i, hi⟩ := by
    apply Fin.ext
    simp [Nat.mod_eq_of_lt hi]
  rw [h, hfix]

theorem swap_uniform_choice_witness :
    ([[5], [6]] : List (List Nat)) ≠ []
      ∧ sampleState.pictureInterval < 11 - sampleState.pictureInstant
      ∧ (∀ idx p, choose [[5], [6]] idx = some p → p ∈ ([[5], [6]] : List (List Nat))) := by
  refine ⟨by decide, by decide, ?_⟩
  exact (swap_uniform_choice [[5], [6]] sampleState 11 (by decide) (by decide)).1

/-- C9: when the picture directory is unreadable or the usable picture
collection is empty, startup aborts (a panic, modelled as an error), so the
application terminates before the event loop processes any event. -/
theorem startup_failure_aborts (dir : Option (List (Option DirEntry)))
    (wid winW winH pw ph interval instant0 idx : Nat)
    (h : dir = none ∨ load_pictures dir pw ph = Except.ok []) :
    (∃ msg, startup dir wid winW winH pw ph interval instant0 idx = Except.error msg)
      ∧ ∀ evs, ∃ msg,
          runApp dir wid winW winH pw ph interval instant0 idx evs = Except.error msg := by
  have hstart : ∃ msg,
      startup dir wid winW winH pw ph interval instant0 idx = Except.error msg := by
    rcases h with h | h
    · subst h
      exact ⟨"read_dir failed: directory unreadable", rfl⟩
    · refine ⟨"called unwrap on a None value", ?_⟩
      simp [startup, h, choose]
  obtain ⟨msg, hs⟩ := hstart
  exact ⟨⟨msg, hs⟩, fun evs => ⟨msg, by simp [runApp, hs]⟩⟩

theorem startup_failure_aborts_witness :
    ((some [] : Option (List (Option DirEntry))) = none
        ∨ load_pictures (some []) 800 480 = Except.ok [])
      ∧ (∃ msg, startup (some []) 0 800 480 800 480 3600 0 0 = Except.error msg)
      ∧ ∃ msg, runApp (some []) 0 800 480 800 480 3600 0 0
          [(Event.redrawRequested 0, 1, 0)] = Except.error msg := by
  have h := startup_failure_aborts (some []) 0 800 480 800 480 3600 0 0 (Or.inr rfl)
  exact ⟨Or.inr rfl, h.1, h.2 [(Event.redrawRequested 0, 1, 0)]⟩

/-- C10: whenever startup succeeds, its effect list is exactly one
setPicture upload of some element of the picture set, so the picture layer
holds a texture before the first draw; and the emptiness abort happens at
this initial selection, not in load_pictures, which returns an empty
collection without error on an empty directory listing. -/
theorem initial_picture_upload (dir : Option (List (Option DirEntry)))
    (wid winW winH pw ph interval instant0 idx : Nat) :
    (∀ st pics effs,
        startup dir wid winW winH pw ph interval instant0 idx = Except.ok (st, pics, effs) →
        ∃ p, p ∈ pics ∧ effs = [RendererEffect.pictureUpload p]
          ∧ countUploads effs = 1
          ∧ st.renderer.picture_pipeline.texture = some p)
      ∧ load_pictures (some []) pw ph = Except.ok []
      ∧ (∃ msg,
          startup (some []) wid winW winH pw ph interval instant0 idx = Except.error msg) := by
  refine ⟨?_, rfl, ⟨"called unwrap on a None value", rfl⟩⟩
  intro st pics effs h
  unfold startup at h
  cases hlp : load_pictures dir pw ph with
  | error msg => simp [hlp] at h
  | ok pictures =>
      simp only [hlp] at h
      cases hch : choose pictures idx with
      | none => simp [hch] at h
      | some p =>
          simp only [hch, Renderer.set_picture, PicturePipeline.set_picture,
                     Except.ok.injEq, Prod.mk.injEq] at h
          obtain ⟨hst, hpics, heffs⟩ := h
          subst hst
          subst hpics
          subst heffs
          exact ⟨p, choose_mem pictures idx p hch, rfl, rfl, rfl⟩

theorem initial_picture_upload_witness :
    ∃ st pics effs,
      startup (some [some { name := some ['a'], decoded := some [1, 2, 3] }])
          0 800 480 1 1 3600 0 0
        = Except.ok (st, pics, effs)
      ∧ ∃ p, p ∈ pics ∧ effs = [RendererEffect.pictureUpload p]
          ∧ countUploads effs = 1
          ∧ st.renderer.picture_pipeline.texture = some p := by
  refine ⟨{ renderer :=
              { windowId := 0,
                config := { width := 800, height := 480, format := 0 },
                picture_pipeline := { width := 1, height := 1, texture := some [1, 2, 3, 0] },
                text_pipeline := { width := 800, height := 480 } },
            pictureInterval := 3600,
            pictureInstant := 0 },
          [[1, 2, 3, 0]],
          [RendererEffect.pictureUpload [1, 2, 3, 0]], rfl, ?_⟩
  exact (initial_picture_upload (some [some { name := some ['a'], decoded := some [1, 2, 3] }])
      0 800 480 1 1 3600 0 0).1 _ _ _ rfl

end ClockApp
